import Mathlib

/-!
Shallow embedding of the change-detection core of the xsms repository
(src/twitter-monitor-selenium.py and src/twitter_monitor.py).

The embedding covers:
* Python `int()` parsing of ID/watermark strings (`parseInt?`);
* `tweet_id_to_timestamp` / `get_exact_timestamp_value` (the sort key derived
  from the tweet ID, lines 142-151 and 307-314 of the selenium script);
* the scrape-normalisation loop (lines 226-317): account attribution,
  ID extraction from the status href, the 30-item scan window, the 20-item
  cap, and the stable descending sort by derived timestamp;
* the per-cycle watermark/detection logic of `main` (lines 319-365),
  including the order of effects (the watermark file is written before the
  delta loop runs) and the `except ValueError` recovery;
* the single-shot OAuth variant's notification loop
  (src/twitter_monitor.py lines 170-219).

Machine integers are modelled as `Int` (Python ints are unbounded).
Notification messages sent by the selenium variant are modelled as the
ordered list of tweet IDs whose message parts are appended at lines
354-357; the per-item text rendering (`clean_tweet_text` plus the
timestamp header) is display-only and preserves neither order nor count
information beyond that list.
-/

namespace XSMS

/-- Value of a list of decimal digit characters, most significant first. -/
def digitsToNat (cs : List Char) : Nat :=
  cs.foldl (fun a c => 10 * a + (c.toNat - 48)) 0

/-- Python `int(s)` on a string: an optional sign followed by decimal digits;
anything else raises `ValueError`, modelled as `none`.  (Surrounding
whitespace and underscore separators, which CPython also accepts, are not
modelled; no ID or watermark in the claims uses them.) -/
def parseInt? (s : String) : Option Int :=
  match s.data with
  | [] => none
  | '-' :: rest =>
    if rest ≠ [] ∧ rest.all (·.isDigit) then some (-(digitsToNat rest : Int)) else none
  | '+' :: rest =>
    if rest ≠ [] ∧ rest.all (·.isDigit) then some ((digitsToNat rest : Int)) else none
  | cs =>
    if cs.all (·.isDigit) then some ((digitsToNat cs : Int)) else none

/-- `tweet_id_to_timestamp` (selenium script lines 142-151) composed with the
re-parse in `get_exact_timestamp_value` (lines 307-314): the ID is parsed as
an int, shifted right by 22 bits (floor division by 2^22, as Python `>>`),
offset by the epoch constant 1288834974657 (milliseconds), divided by 1000
and truncated to whole seconds by the `strftime`/`strptime` round-trip.
`none` models the "Unknown (invalid ID format)" string, which the sort key
function maps to `datetime.min`, i.e. below every parsed timestamp. -/
def tweetIdToTimestamp (id : String) : Option Int :=
  (parseInt? id).map (fun n => Int.fdiv (Int.fdiv n 4194304 + 1288834974657) 1000)

/-- A raw scraped tweet element, carrying the fields the normalisation loop
reads: the element text split into lines, the `data-tweet-id` attribute
(line 251), and the first link href containing "/status/" found by the DOM
scan at lines 257-278 (the scan itself is Selenium collaborator code). -/
structure RawItem where
  textLines : List String
  dataTweetId : Option String
  statusHref : Option String
deriving DecidableEq

/-- Python substring test `needle in hay`. -/
def containsSub (needle hay : String) : Bool :=
  (List.range (hay.data.length + 1)).any (fun i => needle.data.isPrefixOf (hay.data.drop i))

/-- Lines 235-240: the item is attributed to the monitored account when the
account name occurs in one of the first three lines of the element text. -/
def isFromAccount (account : String) (r : RawItem) : Bool :=
  (r.textLines.take 3).any (fun line => containsSub account line)

/-- Python `a or b` for an optional string `a`: `None` and `""` are falsy. -/
def orTruthy (a : Option String) (b : String) : String :=
  match a with
  | some s => if s = "" then b else s
  | none => b

/-- Line 266/277: `href.split('/status/')[1].split('?')[0].split('/')[0]`. -/
def extractIdFromHref (href : String) : String :=
  let afterStatus := (href.splitOn "/status/").getD 1 ""
  let beforeQuery := (afterStatus.splitOn "?").getD 0 ""
  (beforeQuery.splitOn "/").getD 0 ""

/-- The tweet ID extracted from the status link, when one was found
(lines 257-278; the guard `href and '/status/' in href` is line 263). -/
def extractedTweetId (r : RawItem) : Option String :=
  match r.statusHref with
  | some href => if containsSub "/status/" href then some (extractIdFromHref href) else none
  | none => none

/-- Lines 251 and 283: `tweet_id = attr or "unknown"`;
`final_tweet_id = extracted_tweet_id or tweet_id`. -/
def finalTweetId (r : RawItem) : String :=
  orTruthy (extractedTweetId r) (orTruthy r.dataTweetId "unknown")

/-- The normalised record appended at lines 289-297 (the fields the
detection, sorting and messaging logic read; `index`, `html` and
`display_timestamp` are logged only and omitted). `exactKey` is the
derived-timestamp sort key, `none` standing for an unparseable ID. -/
structure NormTweet where
  text : List String
  tweet_id : String
  exactKey : Option Int
  url : Option String
deriving DecidableEq

def mkNorm (r : RawItem) : NormTweet :=
  { text := r.textLines
  , tweet_id := finalTweetId r
  , exactKey := tweetIdToTimestamp (finalTweetId r)
  , url := r.statusHref }

/-- The collection loop, lines 228-303: scan the raw items (the caller
restricts to the first 30, `tweets[:30]`), keep those attributed to the
account, and break once 20 have been collected (lines 299-301; the length
check runs after the append).  `count` is `len(account_tweets)` so far. -/
def scanTweets (account : String) : List RawItem → Nat → List NormTweet
  | [], _ => []
  | r :: rs, count =>
    if isFromAccount account r then
      if count + 1 ≥ 20 then [mkNorm r]
      else mkNorm r :: scanTweets account rs (count + 1)
    else scanTweets account rs count

/-- Comparison of derived-timestamp keys; `none` (`datetime.min` in the
code) is below every known timestamp. -/
def keyLE : Option Int → Option Int → Bool
  | none, _ => true
  | some _, none => false
  | some x, some y => decide (x ≤ y)

/-- The sort relation of line 317 (`sort(key=..., reverse=True)`): `a`
may come before `b` when `a`'s key is at least `b`'s. -/
def tweetGE (a b : NormTweet) : Prop := keyLE b.exactKey a.exactKey = true

instance : DecidableRel tweetGE :=
  fun _ _ => inferInstanceAs (Decidable (_ = true))

instance : IsTotal NormTweet tweetGE := by
  constructor
  intro a b
  unfold tweetGE
  cases h : keyLE b.exactKey a.exactKey
  · right
    cases ha : a.exactKey <;> cases hb : b.exactKey <;>
      simp [keyLE, ha, hb] at h ⊢ <;> omega
  · left
    rfl

instance : IsTrans NormTweet tweetGE := by
  constructor
  intro a b c hab hbc
  unfold tweetGE at hab hbc ⊢
  cases ha : a.exactKey <;> cases hb : b.exactKey <;> cases hc : c.exactKey <;>
    simp [keyLE, ha, hb, hc] at hab hbc ⊢ <;> omega

/-- Line 317: `account_tweets.sort(key=get_exact_timestamp_value,
reverse=True)`.  Python's sort is stable, also with `reverse=True`
(equal-key elements keep their original order); a stable sort's output is
uniquely determined by the key order, so the insertion sort below (which
places each earlier element before later equal-key elements) computes the
same list. -/
def sortDesc (l : List NormTweet) : List NormTweet :=
  l.insertionSort tweetGE

/-- The whole normalisation pass of `main`, lines 226-317. -/
def normalize (account : String) (raws : List RawItem) : List NormTweet :=
  sortDesc (scanTweets account (raws.take 30) 0)

/-- How a detection cycle ended (the selenium variant's log branches):
no tweets collected, nothing newer than the watermark (line 363), watermark
advanced (lines 332-361), or `ValueError` caught at line 364. -/
inductive CycleOutcome
  | noItems
  | stale
  | advanced
  | valueError
deriving DecidableEq

/-- Observable effects of one detection cycle of `main` (lines 319-365):
the watermark file content after the cycle, the sequence of watermark file
writes, the sequence of outbound messages (each as the ordered list of
tweet IDs whose parts the message-building loop at lines 354-357 appended),
the `new_tweets` list computed (as IDs), and the outcome. -/
structure CycleResult where
  persisted : Option String
  writes : List String
  sent : List (List String)
  newTweets : List String
  outcome : CycleOutcome
deriving DecidableEq

/-- Python truthiness of the loaded watermark (`if latest_known_tweet_id`):
`None` and the empty string are falsy. -/
def truthyStr : Option String → Bool
  | none => false
  | some s => decide (s ≠ "")

/-- The delta loop, lines 339-343: walk the (descending) tweet list,
appending IDs strictly greater than the watermark, breaking at the first
ID that is not; `int(...)` on a malformed ID raises `ValueError`
(`Except.error`). -/
def collectNew (latest : Int) : List NormTweet → Except Unit (List String)
  | [] => Except.ok []
  | t :: ts =>
    match parseInt? t.tweet_id with
    | none => Except.error ()
    | some cur =>
      if cur ≤ latest then Except.ok []
      else
        match collectNew latest ts with
        | Except.error e => Except.error e
        | Except.ok rest => Except.ok (t.tweet_id :: rest)

/-- Lines 337-346: the `new_tweets` computation -- via the delta loop when
`latest_known_id_int` is truthy (a nonzero int, line 338), and the single
newest tweet otherwise (line 346, which covers both `None` and the int
`0`). -/
def deltaOf (t : NormTweet) (ts : List NormTweet) (latestKnown : Option Int) :
    Except Unit (List String) :=
  match latestKnown with
  | some m => if m = 0 then Except.ok [t.tweet_id] else collectNew m (t :: ts)
  | none => Except.ok [t.tweet_id]

/-- Lines 332-361, entered when `latest_known_id_int is None or
newest_id_int > latest_known_id_int`: the watermark file is written FIRST
(lines 333-334), then the delta is computed, and finally one combined
message is sent when the delta is non-empty (lines 349-361).  A
`ValueError` in the delta loop aborts to the handler at line 364 with the
new watermark already persisted and no message sent. -/
def seleniumAdvance (t : NormTweet) (ts : List NormTweet) (latestKnown : Option Int) :
    CycleResult :=
  match deltaOf t ts latestKnown with
  | Except.error _ => ⟨some t.tweet_id, [t.tweet_id], [], [], .valueError⟩
  | Except.ok newIds =>
    if newIds.isEmpty then ⟨some t.tweet_id, [t.tweet_id], [], newIds, .advanced⟩
    else ⟨some t.tweet_id, [t.tweet_id], [newIds], newIds, .advanced⟩

/-- One detection cycle of `main`, lines 319-365, as a function of the
sorted tweet list and the watermark loaded at cycle start.  Parsing the
newest ID (line 327) or a truthy watermark (line 328) raising `ValueError`
lands in the handler at line 364 with no write and no message. -/
def seleniumCycle (accountTweets : List NormTweet) (watermark : Option String) :
    CycleResult :=
  match accountTweets with
  | [] => ⟨watermark, [], [], [], .noItems⟩
  | t :: ts =>
    match parseInt? t.tweet_id with
    | none => ⟨watermark, [], [], [], .valueError⟩
    | some newestIdInt =>
      if truthyStr watermark then
        match parseInt? (watermark.getD "") with
        | none => ⟨watermark, [], [], [], .valueError⟩
        | some latestKnown =>
          if latestKnown < newestIdInt then seleniumAdvance t ts (some latestKnown)
          else ⟨watermark, [], [], [], .stale⟩
      else seleniumAdvance t ts none

/-- The watermark as an integer, when the stored string parses. -/
def wmInt (w : Option String) : Option Int := w.bind parseInt?

/-- A sequence of detection cycles, each reading the watermark the previous
cycle left persisted (the `while True` loop of the selenium script). -/
def runCycles (batches : List (List NormTweet)) (w : Option String) : Option String :=
  batches.foldl (fun wm b => (seleniumCycle b wm).persisted) w

/-- The Bool the spec uses to describe the delta: does this tweet's ID
parse to an integer strictly greater than the watermark value `m`? -/
def gtWatermark (m : Int) (t : NormTweet) : Bool :=
  match parseInt? t.tweet_id with
  | some c => decide (m < c)
  | none => false

/-- A tweet as returned by the tweepy API in src/twitter_monitor.py
(the fields its notification loop reads). -/
structure ApiTweet where
  id : Int
  full_text : String
deriving DecidableEq

/-- The SMS text built at line 203 of src/twitter_monitor.py. -/
def smsMessage (account : String) (t : ApiTweet) : String :=
  "New tweet from @" ++ account ++ ": " ++ (t.full_text.take 100) ++
    (if t.full_text.length > 100 then "..." else "") ++ "\n" ++
    "https://twitter.com/" ++ account ++ "/status/" ++ toString t.id

/-- The single-shot run of src/twitter_monitor.py, lines 170-219, given the
fetched tweets (newest first) and the FIRST_RUN flag: returns the newest ID
emitted for the orchestrator (line 182) and the list of SMS messages sent,
one per tweet, oldest first (`for tweet in reversed(tweets)`, line 191);
on the first run it exits before sending anything (lines 185-188). -/
def monitorRun (account : String) (tweets : List ApiTweet) (firstRun : Bool) :
    Option String × List String :=
  match tweets with
  | [] => (none, [])
  | t :: ts =>
    let newestId := toString t.id
    if firstRun then (some newestId, [])
    else (some newestId, ((t :: ts).reverse).map (smsMessage account))

/-! ### Helper lemmas -/

theorem parseInt?_ne_empty {s : String} {m : Int} (h : parseInt? s = some m) : s ≠ "" := by
  intro he
  subst he
  simp [parseInt?] at h

theorem truthyStr_of_parse {s : String} {m : Int} (h : parseInt? s = some m) :
    truthyStr (some s) = true := by
  simp [truthyStr, parseInt?_ne_empty h]

theorem seleniumAdvance_persisted (t : NormTweet) (ts : List NormTweet) (lk : Option Int) :
    (seleniumAdvance t ts lk).persisted = some t.tweet_id := by
  cases hd : deltaOf t ts lk with
  | error e => simp [seleniumAdvance, hd]
  | ok ids =>
    by_cases hi : ids.isEmpty <;> simp [seleniumAdvance, hd, hi]

theorem seleniumAdvance_writes (t : NormTweet) (ts : List NormTweet) (lk : Option Int) :
    (seleniumAdvance t ts lk).writes = [t.tweet_id] := by
  cases hd : deltaOf t ts lk with
  | error e => simp [seleniumAdvance, hd]
  | ok ids =>
    by_cases hi : ids.isEmpty <;> simp [seleniumAdvance, hd, hi]

theorem seleniumAdvance_err_sent (t : NormTweet) (ts : List NormTweet) (lk : Option Int)
    (h : (seleniumAdvance t ts lk).outcome = CycleOutcome.valueError) :
    (seleniumAdvance t ts lk).sent = [] := by
  cases hd : deltaOf t ts lk with
  | error e => simp [seleniumAdvance, hd]
  | ok ids =>
    by_cases hi : ids.isEmpty <;> simp [seleniumAdvance, hd, hi] at h ⊢

theorem seleniumAdvance_sent_le (t : NormTweet) (ts : List NormTweet) (lk : Option Int) :
    (seleniumAdvance t ts lk).sent.length ≤ 1 := by
  cases hd : deltaOf t ts lk with
  | error e => simp [seleniumAdvance, hd]
  | ok ids =>
    by_cases hi : ids.isEmpty <;> simp [seleniumAdvance, hd, hi]

theorem seleniumAdvance_sent_eq (t : NormTweet) (ts : List NormTweet) (lk : Option Int)
    (h : (seleniumAdvance t ts lk).sent ≠ []) :
    (seleniumAdvance t ts lk).sent = [(seleniumAdvance t ts lk).newTweets] := by
  cases hd : deltaOf t ts lk with
  | error e => simp [seleniumAdvance, hd] at h
  | ok ids =>
    by_cases hi : ids.isEmpty <;> simp [seleniumAdvance, hd, hi] at h ⊢

theorem collectNew_eq_takeWhile (m : Int) :
    ∀ l : List NormTweet, (∀ t ∈ l, (parseInt? t.tweet_id).isSome) →
      collectNew m l = Except.ok ((l.takeWhile (gtWatermark m)).map (fun t => t.tweet_id))
  | [], _ => rfl
  | t :: ts, h => by
    have ht : (parseInt? t.tweet_id).isSome := h t (List.mem_cons_self t ts)
    obtain ⟨c, hc⟩ := Option.isSome_iff_exists.mp ht
    have hts : ∀ u ∈ ts, (parseInt? u.tweet_id).isSome :=
      fun u hu => h u (List.mem_cons_of_mem t hu)
    by_cases hcm : c ≤ m
    · have hg : gtWatermark m t = false := by
        simp [gtWatermark, hc]
        omega
      simp [collectNew, hc, hcm, List.takeWhile_cons, hg]
    · have hg : gtWatermark m t = true := by
        simp [gtWatermark, hc]
        omega
      simp [collectNew, hc, hcm, List.takeWhile_cons, hg,
        collectNew_eq_takeWhile m ts hts]

theorem scanTweets_eq_take_filter (a : String) :
    ∀ (l : List RawItem) (c : Nat), c < 20 →
      scanTweets a l c = ((l.filter (isFromAccount a)).take (20 - c)).map mkNorm
  | [], c, _ => by simp [scanTweets]
  | r :: rs, c, hc => by
    by_cases hr : isFromAccount a r
    · by_cases h19 : c + 1 ≥ 20
      · have hc19 : c = 19 := by omega
        subst hc19
        simp [scanTweets, hr, List.filter_cons, List.take_succ_cons]
      · have h1 : 20 - c = (20 - (c + 1)) + 1 := by omega
        simp [scanTweets, hr, h19, List.filter_cons, h1, List.take_succ_cons,
          scanTweets_eq_take_filter a rs (c + 1) (by omega)]
    · simp [scanTweets, hr, List.filter_cons,
        scanTweets_eq_take_filter a rs c hc]

/-- Shared concrete tweet builder for witnesses and counterexamples. -/
def wTweet (id : String) : NormTweet := ⟨[], id, tweetIdToTimestamp id, none⟩

/-! ### Claim C5 -/

/-- Claim C5: when the newest item's ID does not parse as an integer, the
cycle ends in the recoverable `ValueError` path: the persisted watermark is
left untouched, nothing is written, and no message is sent (the handler at
line 364 keeps the process loop alive; totality of `seleniumCycle` models
the absence of a crash). -/
theorem C5_theorem (t : NormTweet) (ts : List NormTweet) (w : Option String)
    (h : parseInt? t.tweet_id = none) :
    seleniumCycle (t :: ts) w = ⟨w, [], [], [], .valueError⟩ := by
  simp [seleniumCycle, h]

/-- Witness for C5 at `newest.id = "unknown"`. -/
theorem C5_witness :
    seleniumCycle [wTweet "unknown"] (some "101") = ⟨some "101", [], [], [], .valueError⟩ :=
  C5_theorem (wTweet "unknown") [] (some "101") (by decide)

/-! ### Claim C7 -/

/-- Claim C7: when the newest ID parses to an integer no greater than the
parsed stored watermark, the cycle is a no-op: no new items, no write, no
message, watermark returned unchanged (line 363). -/
theorem C7_theorem (t : NormTweet) (ts : List NormTweet) (s : String) (m n : Int)
    (hn : parseInt? t.tweet_id = some n) (hm : parseInt? s = some m) (hle : n ≤ m) :
    seleniumCycle (t :: ts) (some s) = ⟨some s, [], [], [], .stale⟩ := by
  have hlt : ¬ (m < n) := by omega
  simp [seleniumCycle, hn, truthyStr_of_parse hm, hm, hlt]

/-- Witness for C7: newest ID 100 against watermark "105". -/
theorem C7_witness :
    seleniumCycle [wTweet "100"] (some "105") = ⟨some "105", [], [], [], .stale⟩ :=
  C7_theorem (wTweet "100") [] "105" 105 100 (by decide) (by decide) (by decide)

/-- Exhaustive case analysis of one detection cycle: either nothing is
written and sent (no tweets, a `ValueError` while parsing, or a stale
newest ID), or the cycle runs the advance path, and then only with a
parseable newest ID and either no stored integer watermark or a stored
one that is strictly smaller. -/
theorem seleniumCycle_cases (tweets : List NormTweet) (w : Option String) :
    (seleniumCycle tweets w = ⟨w, [], [], [], .noItems⟩ ∨
     seleniumCycle tweets w = ⟨w, [], [], [], .valueError⟩ ∨
     seleniumCycle tweets w = ⟨w, [], [], [], .stale⟩) ∨
    (∃ t ts n lk, tweets = t :: ts ∧ parseInt? t.tweet_id = some n ∧
      seleniumCycle tweets w = seleniumAdvance t ts lk ∧
      ((lk = none ∧ truthyStr w = false) ∨
        ∃ s m, w = some s ∧ parseInt? s = some m ∧ lk = some m ∧ m < n)) := by
  cases tweets with
  | nil =>
    left
    left
    rfl
  | cons t ts =>
    cases hn : parseInt? t.tweet_id with
    | none =>
      left
      right
      left
      simp [seleniumCycle, hn]
    | some n =>
      by_cases hw : truthyStr w
      · cases hm : parseInt? (w.getD "") with
        | none =>
          left
          right
          left
          simp [seleniumCycle, hn, hw, hm]
        | some m =>
          by_cases hlt : m < n
          · right
            refine ⟨t, ts, n, some m, rfl, hn, by simp [seleniumCycle, hn, hw, hm, hlt],
              Or.inr ?_⟩
            cases w with
            | none => simp [truthyStr] at hw
            | some s => exact ⟨s, m, rfl, by simpa using hm, rfl, hlt⟩
          · left
            right
            right
            simp [seleniumCycle, hn, hw, hm, hlt]
      · right
        exact ⟨t, ts, n, none, rfl, hn, by simp [seleniumCycle, hn, hw], Or.inl ⟨rfl, by simpa using hw⟩⟩

/-- One cycle never parses the persisted watermark down: if the watermark
read at cycle start has an integer value, the one left persisted has an
integer value at least as large. -/
theorem wmInt_seleniumCycle (b : List NormTweet) (w : Option String) (m : Int)
    (h : wmInt w = some m) :
    ∃ k, wmInt (seleniumCycle b w).persisted = some k ∧ m ≤ k := by
  obtain ⟨s, hs, hp⟩ : ∃ s, w = some s ∧ parseInt? s = some m := by
    cases w with
    | none => simp [wmInt] at h
    | some s => exact ⟨s, rfl, by simpa [wmInt] using h⟩
  subst hs
  cases b with
  | nil => exact ⟨m, by simpa [seleniumCycle, wmInt] using hp, le_refl m⟩
  | cons t ts =>
    cases hn : parseInt? t.tweet_id with
    | none => exact ⟨m, by simpa [seleniumCycle, hn, wmInt] using hp, le_refl m⟩
    | some n =>
      by_cases hlt : m < n
      · refine ⟨n, ?_, le_of_lt hlt⟩
        simp [seleniumCycle, hn, truthyStr_of_parse hp, hp, hlt, wmInt,
          seleniumAdvance_persisted, hn]
      · refine ⟨m, ?_, le_refl m⟩
        simpa [seleniumCycle, hn, truthyStr_of_parse hp, hp, hlt, wmInt] using hp

/-! ### Claim C10 -/

/-- Claim C10: across every sequence of detection cycles, each reading the
watermark the previous cycle persisted, the watermark interpreted as an
integer never decreases. -/
theorem C10_theorem (batches : List (List NormTweet)) (w : Option String) (m : Int)
    (h : wmInt w = some m) :
    ∃ k, wmInt (runCycles batches w) = some k ∧ m ≤ k := by
  induction batches generalizing w m with
  | nil => exact ⟨m, by simpa [runCycles] using h, le_refl m⟩
  | cons b bs ih =>
    obtain ⟨k, hk, hmk⟩ := wmInt_seleniumCycle b w m h
    obtain ⟨k2, hk2, hkk2⟩ := ih _ _ hk
    exact ⟨k2, by simpa [runCycles] using hk2, le_trans hmk hkk2⟩

/-- Witness for C10: two cycles advancing the watermark from "101". -/
theorem C10_witness :
    ∃ k, wmInt (runCycles [[wTweet "105"], [wTweet "104"]] (some "101")) = some k ∧
      (101 : Int) ≤ k :=
  C10_theorem [[wTweet "105"], [wTweet "104"]] (some "101") 101 (by decide)

/-! ### Claim C1 -/

/-- Claim C1 counterexample: tweets `[105, "x"]` against watermark "101".
The newest ID 105 is greater than 101, so the file is written, and only
then does the delta loop hit the malformed ID "x" and raise `ValueError`;
the cycle fails with the NEW watermark "105" already persisted, refuting
"the write happens strictly after the list of new items has been
successfully computed (so a failure while computing the delta leaves the
old watermark intact)". -/
theorem C1_counterexample :
    (seleniumCycle [wTweet "105", wTweet "x"] (some "101")).outcome =
        CycleOutcome.valueError ∧
    (seleniumCycle [wTweet "105", wTweet "x"] (some "101")).persisted = some "105" ∧
    some "105" ≠ (some "101" : Option String) := by
  decide

/-- Claim C1 as amended: per cycle the watermark is written at most once,
a write only happens when the newest ID parses to an integer strictly
greater than the parsed stored watermark (when one is stored), and a
`ValueError` failure suppresses the notification -- but the write happens
BEFORE the delta is computed, so such a failure can leave the new
watermark persisted (as the counterexample shows). -/
theorem C1_amended (tweets : List NormTweet) (w : Option String) :
    (seleniumCycle tweets w).writes.length ≤ 1 ∧
    (∀ s m v, w = some s → parseInt? s = some m →
      (seleniumCycle tweets w).writes = [v] → ∃ n, parseInt? v = some n ∧ m < n) ∧
    ((seleniumCycle tweets w).outcome = CycleOutcome.valueError →
      (seleniumCycle tweets w).sent = []) := by
  rcases seleniumCycle_cases tweets w with (h | h | h) | ⟨t, ts, n, lk, htw, hn, hadv, hlk⟩
  · rw [h]
    refine ⟨by simp, fun s m v _ _ hv => by simp at hv, by simp⟩
  · rw [h]
    refine ⟨by simp, fun s m v _ _ hv => by simp at hv, by simp⟩
  · rw [h]
    refine ⟨by simp, fun s m v _ _ hv => by simp at hv, by simp⟩
  · rw [hadv]
    refine ⟨by rw [seleniumAdvance_writes]; simp, ?_, seleniumAdvance_err_sent t ts lk⟩
    intro s m v hw hm hv
    rcases hlk with ⟨_, htr⟩ | ⟨s2, m2, hw2, hm2, _, hlt⟩
    · rw [hw] at htr
      rw [truthyStr_of_parse hm] at htr
      simp at htr
    · rw [hw] at hw2
      injection hw2 with hss
      subst hss
      rw [hm] at hm2
      injection hm2 with hmm
      subst hmm
      rw [seleniumAdvance_writes] at hv
      injection hv with hv1 _
      subst hv1
      exact ⟨n, hn, hlt⟩

/-- Witness for C1 as amended: applied to tweets `[205]` and watermark
"101", yielding the write bound and the strictly-greater condition for
the performed write. -/
theorem C1_amended_witness :
    (seleniumCycle [wTweet "205"] (some "101")).writes.length ≤ 1 ∧
    ∃ n, parseInt? "205" = some n ∧ (101 : Int) < n :=
  ⟨(C1_amended [wTweet "205"] (some "101")).1,
   (C1_amended [wTweet "205"] (some "101")).2.1 "101" 101 "205" rfl (by decide) (by decide)⟩

/-! ### Claim C2 -/

/-- Claim C2 counterexample: with no stored watermark and one tweet with
ID 105, the cycle computes `new_tweets = [105]` and sends one message for
it (line 346: "First run - only notify about the most recent tweet"),
refuting "detection returns an empty list of new items (no notification
is sent)". -/
theorem C2_counterexample :
    (seleniumCycle [wTweet "105"] none).newTweets = ["105"] ∧
    (["105"] : List String) ≠ [] ∧
    (seleniumCycle [wTweet "105"] none).sent = [["105"]] ∧
    ([["105"]] : List (List String)) ≠ [] := by
  decide

/-- Claim C2 as amended: when the stored watermark is absent or empty (and
the newest ID parses), the selenium cycle returns the single newest item
as the delta, sends exactly one message for it, and persists the newest
ID; the env-var variant (src/twitter_monitor.py) with FIRST_RUN=true emits
the newest ID and sends nothing. -/
theorem C2_amended :
    (∀ (t : NormTweet) (ts : List NormTweet) (w : Option String) (n : Int),
        parseInt? t.tweet_id = some n → truthyStr w = false →
        seleniumCycle (t :: ts) w =
          ⟨some t.tweet_id, [t.tweet_id], [[t.tweet_id]], [t.tweet_id], .advanced⟩) ∧
    (∀ (a : String) (u : ApiTweet) (us : List ApiTweet),
        monitorRun a (u :: us) true = (some (toString u.id), [])) := by
  constructor
  · intro t ts w n hn hw
    simp [seleniumCycle, hn, hw, seleniumAdvance, deltaOf]
  · intro a u us
    simp [monitorRun]

/-- Witness for C2 as amended: first run on tweet 105 and, for the env-var
variant, on an API tweet with ID 200. -/
theorem C2_amended_witness :
    seleniumCycle [wTweet "105"] none =
      ⟨some "105", ["105"], [["105"]], ["105"], .advanced⟩ ∧
    monitorRun "alice" [⟨200, "hi"⟩] true = (some (toString (200 : Int)), []) :=
  ⟨C2_amended.1 (wTweet "105") [] none 105 (by decide) rfl,
   C2_amended.2 "alice" ⟨200, "hi"⟩ []⟩

/-! ### Claim C3 -/

/-- ID of a tweet as an integer, defaulting to 0 (used only to state the
descending-order hypothesis). -/
def idIntD (t : NormTweet) : Int := (parseInt? t.tweet_id).getD 0

/-- Claim C3 counterexample: watermark "0" parses to an integer smaller
than the newest ID 105, so the claim demands the delta `[105, 104]`; but
Python treats the int 0 as falsy at `if latest_known_id_int:`, so the code
takes the first-run branch and returns only `[105]`. -/
theorem C3_counterexample :
    parseInt? "0" = some 0 ∧
    (([wTweet "105", wTweet "104"].takeWhile (gtWatermark 0)).map (fun t => t.tweet_id) =
      ["105", "104"]) ∧
    (seleniumCycle [wTweet "105", wTweet "104"] (some "0")).newTweets = ["105"] ∧
    (["105"] : List String) ≠ ["105", "104"] := by
  decide

/-- Claim C3 as amended: for a descending item list whose IDs all parse
and a watermark parsing to a NONZERO integer smaller than the newest ID,
the cycle returns exactly the prefix of items with ID strictly greater
than the watermark (stopping at the first other item), sends them as one
message, and persists the newest ID. -/
theorem C3_amended (t : NormTweet) (ts : List NormTweet) (s : String) (m n : Int)
    (hm : parseInt? s = some m) (hm0 : m ≠ 0)
    (hn : parseInt? t.tweet_id = some n) (hlt : m < n)
    (hall : ∀ u ∈ t :: ts, (parseInt? u.tweet_id).isSome)
    (_hdesc : List.Pairwise (fun a b => idIntD b < idIntD a) (t :: ts)) :
    seleniumCycle (t :: ts) (some s) =
      ⟨some t.tweet_id, [t.tweet_id],
       [((t :: ts).takeWhile (gtWatermark m)).map (fun u => u.tweet_id)],
       ((t :: ts).takeWhile (gtWatermark m)).map (fun u => u.tweet_id), .advanced⟩ := by
  have hcoll := collectNew_eq_takeWhile m (t :: ts) hall
  have hg : gtWatermark m t = true := by
    simp [gtWatermark, hn]
    omega
  simp [seleniumCycle, hn, truthyStr_of_parse hm, hm, hlt, seleniumAdvance, deltaOf, hm0,
    hcoll, List.takeWhile_cons, hg]

/-- Witness for C3 as amended: the spec's own example, items
`[105, 104, 101]` against watermark "101". -/
theorem C3_amended_witness :
    seleniumCycle [wTweet "105", wTweet "104", wTweet "101"] (some "101") =
      ⟨some "105", ["105"], [["105", "104"]], ["105", "104"], .advanced⟩ :=
  (C3_amended (wTweet "105") [wTweet "104", wTweet "101"] "101" 101 105
    (by decide) (by decide) (by decide) (by decide) (by decide) (by decide)).trans (by decide)

/-! ### Claim C4 -/

/-- Claim C4 counterexample: with delta IDs `[200, 199]`, the single
combined message lists the items in detection order (200 first, then
199), not oldest-first as the claim demands. -/
theorem C4_counterexample :
    (seleniumCycle [wTweet "200", wTweet "199"] (some "150")).sent = [["200", "199"]] ∧
    ([["200", "199"]] : List (List String)) ≠ [["199", "200"]] := by
  decide

/-- Claim C4 as amended: the selenium cycle sends at most one message, and
when it sends one, it is a single batch containing exactly the detected
new items in detection order (newest first, as the counterexample shows),
not oldest-first; the env-var variant instead sends one message per item
(oldest first), so its send count equals the item count. -/
theorem C4_amended :
    (∀ (tweets : List NormTweet) (w : Option String),
        (seleniumCycle tweets w).sent.length ≤ 1 ∧
        ((seleniumCycle tweets w).sent ≠ [] →
          (seleniumCycle tweets w).sent = [(seleniumCycle tweets w).newTweets])) ∧
    (∀ (a : String) (tweets : List ApiTweet),
        (monitorRun a tweets false).2 = tweets.reverse.map (smsMessage a) ∧
        (monitorRun a tweets false).2.length = tweets.length) := by
  constructor
  · intro tweets w
    rcases seleniumCycle_cases tweets w with (h | h | h) | ⟨t, ts, _, lk, _, _, hadv, _⟩
    · rw [h]
      exact ⟨by simp, fun hs => by simp at hs⟩
    · rw [h]
      exact ⟨by simp, fun hs => by simp at hs⟩
    · rw [h]
      exact ⟨by simp, fun hs => by simp at hs⟩
    · rw [hadv]
      exact ⟨seleniumAdvance_sent_le t ts lk, seleniumAdvance_sent_eq t ts lk⟩
  · intro a tweets
    cases tweets with
    | nil => simp [monitorRun]
    | cons t ts => simp [monitorRun]

set_option maxRecDepth 4096 in
/-- Witness for C4 as amended: applied to the end-to-end scenario
`[200, 199]` over watermark "150", and to a two-tweet env-var run fetched
newest-first, whose two SMS messages come out oldest-first (199's message
before 200's). -/
theorem C4_amended_witness :
    (seleniumCycle [wTweet "200", wTweet "199"] (some "150")).sent =
      [(seleniumCycle [wTweet "200", wTweet "199"] (some "150")).newTweets] ∧
    (monitorRun "alice" [⟨200, "a"⟩, ⟨199, "b"⟩] false).2 =
      [smsMessage "alice" ⟨199, "b"⟩, smsMessage "alice" ⟨200, "a"⟩] ∧
    (monitorRun "alice" [⟨200, "a"⟩, ⟨199, "b"⟩] false).2.length = 2 :=
  ⟨(C4_amended.1 [wTweet "200", wTweet "199"] (some "150")).2 (by decide),
   ((C4_amended.2 "alice" [⟨200, "a"⟩, ⟨199, "b"⟩]).1).trans (by decide),
   (C4_amended.2 "alice" [⟨200, "a"⟩, ⟨199, "b"⟩]).2⟩

/-! ### Sorting lemmas -/

theorem keyLE_refl (o : Option Int) : keyLE o o = true := by
  cases o <;> simp [keyLE]

theorem sortDesc_perm (l : List NormTweet) : (sortDesc l).Perm l :=
  List.perm_insertionSort tweetGE l

theorem sortDesc_sorted (l : List NormTweet) : List.Sorted tweetGE (sortDesc l) :=
  List.sorted_insertionSort tweetGE l

/-- Inserting an element distributes over filtering by an exact key: the
inserted element lands before every element of equal key already present
(the later equal-key elements are those it is inserted above). -/
theorem filter_orderedInsert_key (k : Option Int) (a : NormTweet) :
    ∀ l : List NormTweet,
      (List.orderedInsert tweetGE a l).filter (fun t => t.exactKey == k) =
        if a.exactKey == k then a :: l.filter (fun t => t.exactKey == k)
        else l.filter (fun t => t.exactKey == k)
  | [] => by
    by_cases ha : a.exactKey == k <;> simp [List.orderedInsert, List.filter_cons, ha]
  | b :: bs => by
    by_cases hab : tweetGE a b
    · by_cases ha : a.exactKey == k <;>
        simp [List.orderedInsert, hab, List.filter_cons, ha]
    · have ih := filter_orderedInsert_key k a bs
      by_cases ha : a.exactKey == k
      · have hbk : (b.exactKey == k) = false := by
          by_contra hbk
          have hb : b.exactKey = k := by
            simpa using Bool.not_eq_false _ |>.mp hbk
          have hak : a.exactKey = k := by simpa using ha
          exact hab (by simp [tweetGE, hb, hak, keyLE_refl])
        simp [List.orderedInsert, hab, List.filter_cons, hbk, ih, ha]
      · simp [List.orderedInsert, hab, List.filter_cons, ih, ha]

/-- Stability of the model of Python's stable sort: filtering the sorted
output by any exact-timestamp key yields the same subsequence, in the
same order, as filtering the input. -/
theorem sortDesc_filter_key (k : Option Int) :
    ∀ l : List NormTweet,
      (sortDesc l).filter (fun t => t.exactKey == k) = l.filter (fun t => t.exactKey == k)
  | [] => rfl
  | a :: l => by
    have ih := sortDesc_filter_key k l
    simp only [sortDesc, List.insertionSort] at ih ⊢
    rw [filter_orderedInsert_key k a (List.insertionSort tweetGE l), ih]
    by_cases ha : a.exactKey == k <;> simp [List.filter_cons, ha]

/-! ### Claim C8 -/

/-- Claim C8: the normaliser's output is sorted by derived timestamp
descending; no item with an Unknown (`none`) timestamp precedes an item
with a known one; the output is a permutation of the collected items; and
the sort is stable -- for every key, equal-key items appear in their
original discovery order (the filter by that key is unchanged). -/
theorem C8_theorem (account : String) (raws : List RawItem) :
    List.Sorted tweetGE (normalize account raws) ∧
    List.Pairwise (fun a b => a.exactKey = none → b.exactKey = none)
      (normalize account raws) ∧
    (normalize account raws).Perm (scanTweets account (raws.take 30) 0) ∧
    (∀ k : Option Int,
      (normalize account raws).filter (fun t => t.exactKey == k) =
        (scanTweets account (raws.take 30) 0).filter (fun t => t.exactKey == k)) := by
  refine ⟨sortDesc_sorted _, ?_, sortDesc_perm _, fun k => sortDesc_filter_key k _⟩
  refine List.Pairwise.imp ?_ (sortDesc_sorted (scanTweets account (raws.take 30) 0))
  intro a b hab han
  unfold tweetGE at hab
  rw [han] at hab
  cases hb : b.exactKey with
  | none => rfl
  | some x =>
    rw [hb] at hab
    simp [keyLE] at hab

/-! ### Claim C6 -/

def c6raw1 : RawItem := ⟨["alice", "hello"], some "4194304000", none⟩

def c6raw2 : RawItem := ⟨["alice", "world"], some "4194304000", none⟩

/-- Claim C6 counterexample: two raw items yielding the same extracted ID
"4194304000" with different surrounding text both appear in the
normaliser's output -- the code has no deduplication step, refuting
"returns exactly one normalized item for that ID". -/
theorem C6_counterexample :
    (normalize "alice" [c6raw1, c6raw2]).map (fun t => t.tweet_id) =
      ["4194304000", "4194304000"] ∧
    List.countP (fun t => t.tweet_id == "4194304000") (normalize "alice" [c6raw1, c6raw2]) = 2 ∧
    (2 : Nat) ≠ 1 := by
  decide

/-- Claim C6 as amended: normalisation performs no deduplication -- it
returns one output item per retained raw occurrence, so its length is
exactly the number of account-attributed raw items among the first 30
scanned, capped at 20, duplicates included. -/
theorem C6_amended (account : String) (raws : List RawItem) :
    (normalize account raws).length =
      min 20 (List.countP (isFromAccount account) (raws.take 30)) := by
  have hperm := sortDesc_perm (scanTweets account (raws.take 30) 0)
  have hscan := scanTweets_eq_take_filter account (raws.take 30) 0 (by omega)
  calc (normalize account raws).length
      = (scanTweets account (raws.take 30) 0).length := hperm.length_eq
    _ = min 20 (List.countP (isFromAccount account) (raws.take 30)) := by
        rw [hscan]
        simp [List.length_take, List.countP_eq_length_filter]

/-! ### Claim C9 -/

/-- 21 attributable raw items whose IDs ascend (the newest is discovered
last); the ID `n * 4194304000` has derived-timestamp key `1288834974 + n`. -/
def c9raws : List RawItem :=
  (List.range 21).map (fun i => ⟨["alice"], some (toString ((i + 1) * 4194304000)), none⟩)

/-- Claim C9 counterexample: with 21 attributable raw items discovered
oldest-first, the positional cap keeps the first 20 and discards the
21st -- the strictly NEWEST item (key 1288834995, above every kept key),
refuting "the items discarded to meet the cap are always the oldest ones
by creation time, never the newest". -/
theorem C9_counterexample :
    c9raws.length = 21 ∧
    (normalize "alice" c9raws).length = 20 ∧
    tweetIdToTimestamp "88080384000" = some 1288834995 ∧
    ((normalize "alice" c9raws).all fun t =>
      (t.tweet_id != "88080384000") && keyLE t.exactKey (some 1288834994)) = true := by
  decide

/-- Claim C9 as amended: the cap is positional -- the output is (a
permutation of) the first 20 attributable raw items in discovery order,
hence at most 20 items; only when the attributable raw items arrive
newest-first (derived keys descending, as a timeline feed presents them)
is every discarded item no newer than every kept item. -/
theorem C9_amended (account : String) (raws : List RawItem) :
    (normalize account raws).length ≤ 20 ∧
    (normalize account raws).Perm
      ((((raws.take 30).filter (isFromAccount account)).take 20).map mkNorm) ∧
    (List.Pairwise (fun r s => keyLE (mkNorm s).exactKey (mkNorm r).exactKey = true)
        ((raws.take 30).filter (isFromAccount account)) →
      ∀ t ∈ normalize account raws,
        ∀ r ∈ ((raws.take 30).filter (isFromAccount account)).drop 20,
          keyLE (mkNorm r).exactKey t.exactKey = true) := by
  have hscan := scanTweets_eq_take_filter account (raws.take 30) 0 (by omega)
  have hperm : (normalize account raws).Perm
      ((((raws.take 30).filter (isFromAccount account)).take 20).map mkNorm) := by
    have h := sortDesc_perm (scanTweets account (raws.take 30) 0)
    simpa [normalize, hscan] using h
  refine ⟨?_, hperm, ?_⟩
  · calc (normalize account raws).length
        = ((((raws.take 30).filter (isFromAccount account)).take 20).map mkNorm).length :=
          hperm.length_eq
      _ ≤ 20 := by simp [List.length_take]
  · intro hpw t ht r hr
    have ht2 : t ∈ (((raws.take 30).filter (isFromAccount account)).take 20).map mkNorm :=
      hperm.mem_iff.mp ht
    obtain ⟨r0, hr0, rfl⟩ := List.mem_map.mp ht2
    have hsplit : (raws.take 30).filter (isFromAccount account) =
        ((raws.take 30).filter (isFromAccount account)).take 20 ++
          ((raws.take 30).filter (isFromAccount account)).drop 20 :=
      (List.take_append_drop 20 _).symm
    rw [hsplit] at hpw
    exact (List.pairwise_append.mp hpw).2.2 r0 hr0 r hr

/-- 21 attributable raw items whose IDs descend (newest first, as a real
timeline feed presents them). -/
def c9descRaws : List RawItem :=
  (List.range 21).map (fun i => ⟨["alice"], some (toString ((21 - i) * 4194304000)), none⟩)

/-- Witness for C9 as amended on a descending 21-item feed: the one
discarded item (the oldest, key 1288834975) is no newer than the kept
newest item (key 1288834995). -/
theorem C9_amended_witness :
    keyLE (mkNorm ⟨["alice"], some "4194304000", none⟩).exactKey
      (mkNorm ⟨["alice"], some "88080384000", none⟩).exactKey = true :=
  (C9_amended "alice" c9descRaws).2.2 (by decide)
    (mkNorm ⟨["alice"], some "88080384000", none⟩) (by decide)
    ⟨["alice"], some "4194304000", none⟩ (by decide)

end XSMS
